import Mathlib

/-!
Shallow embedding of the Frame.io → Slack webhook relay service.

The repository contains three variants of the service:
* `src/server.js` — the block-structured variant with an OAuth refresh-token
  cache (`getAccessToken`), a project-name lookup (`getProjectName`) and a
  Block Kit formatter; modelled by `getAccessToken`, `getProjectName` and
  `serverWebhook` below.
* `src/unnamed/part_001` — a plain-text variant with a configuration check;
  modelled by `part001Webhook`.
* `src/unnamed/part_000` — a plain-text variant without a configuration
  check; modelled by `part000Webhook`.

JavaScript dynamic values are modelled explicitly: a nullable string is
`Option String` (`none` = null/undefined), JS truthiness of such a value is
`jsTruthyS`, and a value that may be `undefined` when rendered into a
template literal goes through `jsStr` (JS renders `undefined` as the string
"undefined").  External I/O (the identity token endpoint, the project GET,
the Slack POST) is passed in as explicit `Except Unit _` oracles, so each
handler is a pure function of its inputs and the oracles.
-/

deriving instance DecidableEq for Except

/-- JS truthiness of a nullable string: null/undefined and "" are falsy. -/
def jsTruthyS : Option String → Bool
  | none => false
  | some s => s != ""

/-- Rendering of a possibly-undefined string into a template literal:
JS prints `undefined` as "undefined". -/
def jsStr : Option String → String
  | none => "undefined"
  | some s => s

/-- The numeric value JS uses when comparing `Date.now() < tokenExpiry`:
`null` coerces to 0. -/
def expiryNum : Option Int → Int
  | none => 0
  | some e => e

/-- The module-level token cache of `server.js`
(`let accessToken = null; let tokenExpiry = null;`). -/
structure TokenState where
  accessToken : Option String
  tokenExpiry : Option Int
deriving DecidableEq, Repr

/-- JSON body of a successful identity-endpoint response. -/
structure TokenResponse where
  access_token : String
  expires_in : Nat
deriving DecidableEq, Repr

/-- Result of one call to `getAccessToken`: the returned/thrown value, the
token cache afterwards, and whether the identity endpoint was called. -/
structure TokenStep where
  result : Except Unit String
  state : TokenState
  identityCalled : Bool
deriving DecidableEq, Repr

/-- `getAccessToken` from `src/server.js` lines 22–48.  If the cached token
is truthy and `Date.now() < tokenExpiry`, the cached token is returned with
no network call and no mutation.  Otherwise the identity endpoint is called
(oracle `idRes`); on success the token is stored and the expiry is set to
`Date.now() + 60 * 60 * 1000` (the code ignores the response's
`expires_in`); on failure an error is thrown and the cache is untouched. -/
def getAccessToken (st : TokenState) (now : Int)
    (idRes : Except Unit TokenResponse) : TokenStep :=
  if jsTruthyS st.accessToken = true ∧ now < expiryNum st.tokenExpiry then
    ⟨.ok (st.accessToken.getD ""), st, false⟩
  else
    match idRes with
    | .ok r => ⟨.ok r.access_token, ⟨some r.access_token, some (now + 3600000)⟩, true⟩
    | .error _ => ⟨.error (), st, true⟩

/-- JSON body of a 2xx response from `GET /projects/:id`.  The `name` field
is `none` when the response is malformed (missing the field). -/
structure ProjData where
  name : Option String
deriving DecidableEq, Repr

/-- Result of one call to `getProjectName`: the returned value (`none`
models JS `undefined`), the token cache afterwards, and whether any outbound
network request was attempted. -/
structure ProjStep where
  result : Option String
  state : TokenState
  networkCalled : Bool
deriving DecidableEq, Repr

/-- `getProjectName` from `src/server.js` lines 63–72.  A falsy `projectId`
returns the fallback with no network activity.  Otherwise the GET runs
through the axios request interceptor (lines 53–57), which first obtains a
token via `getAccessToken`; a rejection there, or a rejected GET (oracle
`projRes`), is caught by the `try/catch` and yields the fallback.  A 2xx
response returns `response.data.name` — which is JS `undefined` when the
field is absent. -/
def getProjectName (projectId : Option String) (st : TokenState) (now : Int)
    (idRes : Except Unit TokenResponse) (projRes : Except Unit ProjData) : ProjStep :=
  if jsTruthyS projectId = false then
    ⟨some "Unknown Project", st, false⟩
  else
    let t := getAccessToken st now idRes
    match t.result with
    | .error _ => ⟨some "Unknown Project", t.state, t.identityCalled⟩
    | .ok _ =>
      match projRes with
      | .error _ => ⟨some "Unknown Project", t.state, true⟩
      | .ok d => ⟨d.name, t.state, true⟩

/-- `resource.owner` of an inbound event. -/
structure Owner where
  name : String
deriving DecidableEq, Repr

/-- `resource.asset` of an inbound comment event. -/
structure Asset where
  name : String
  short_url : String
  thumbnail_url : String
deriving DecidableEq, Repr

/-- The `resource` object of an inbound webhook payload.  Fields that a
payload may omit are `Option`s; scalar fields default to the empty value
(reading them when absent yields JS `undefined`, which the claims under
study never exercise on these fields). -/
structure Resource where
  project_id : Option String := none
  owner : Option Owner := none
  asset : Option Asset := none
  timestamp : Nat := 0
  text : String := ""
  name : String := ""
  short_url : String := ""
  thumbnail_url : Option String := none
  filesize : Option Nat := none
deriving DecidableEq, Repr

/-- An inbound webhook payload: the `type` discriminant and the resource. -/
structure Event where
  type : String
  resource : Resource
deriving DecidableEq, Repr

/-- A Slack Block Kit block as built by `server.js`. -/
inductive Block where
  | contextBlock (text : String)
  | sectionBlock (text : String)
  | imageBlock (url : String) (alt : String)
  | dividerBlock
deriving DecidableEq, Repr

/-- The visible text carried by a block (context/section mrkdwn text). -/
def blockText : Block → String
  | .contextBlock t => t
  | .sectionBlock t => t
  | .imageBlock _ _ => ""
  | .dividerBlock => ""

/-- The text of a relayed block list, reading the blocks in order. -/
def blocksText (bs : List Block) : String :=
  (bs.map blockText).foldr (· ++ ·) ""

/-- Zero-padding to two digits, as produced by `toISOString` fields and by
`toFixed(2)` fractional digits. -/
def pad2 (n : Nat) : String :=
  if n < 10 then "0" ++ toString n else toString n

/-- `new Date(t * 1000).toISOString().substr(11, 8)` from `server.js`
line 95, for a nonnegative whole-second timestamp `t`: the time of day of
the instant `t` seconds after the epoch, so the hour field is reduced
modulo 24. -/
def formatTimestamp (t : Nat) : String :=
  pad2 ((t / 3600) % 24) ++ ":" ++ pad2 ((t % 3600) / 60) ++ ":" ++ pad2 (t % 60)

/-- Modelled from the spec: "`resource.timestamp` (seconds, converted to
zero-padded HH:MM:SS)" read as a string representing that many hours,
minutes and seconds, i.e. with the hour field `t / 3600` not reduced. -/
def specHMS (t : Nat) : String :=
  pad2 (t / 3600) ++ ":" ++ pad2 ((t % 3600) / 60) ++ ":" ++ pad2 (t % 60)

/-- `(resource.filesize / 1024 / 1024).toFixed(2)` from `server.js`
line 113, idealised over exact rationals: the number of megabytes
(`n / 2^20`) rounded to the nearest hundredth, half up. -/
def toFixed2MB (n : Nat) : String :=
  let d := (100 * n + 524288) / 1048576
  toString (d / 100) ++ "." ++ pad2 (d % 100)

/-- The `assetSize` expression of `server.js` line 113:
`resource.filesize ? \x60(... MB)\x60 : ''`.  JS truthiness of a number makes a
present-but-zero filesize take the empty branch. -/
def assetSizeStr (fs : Option Nat) : String :=
  match fs with
  | some n => if n ≠ 0 then "(" ++ toFixed2MB n ++ " MB)" else ""
  | none => ""

/-- The four blocks built for a `comment.created` event
(`server.js` lines 99–104). -/
def commentBlocks (projectName commenter assetName ts text thumb : String) : List Block :=
  [ .contextBlock ("*" ++ projectName ++ "*"),
    .sectionBlock ("*" ++ commenter ++ "* commented on *" ++ assetName ++ "*\n`" ++ ts ++ "` " ++ text),
    .imageBlock thumb "Video thumbnail",
    .dividerBlock ]

/-- The four blocks built for an `asset.created` event
(`server.js` lines 115–120). -/
def assetBlocks (projectName uploader assetName shortUrl sizeStr thumb : String) : List Block :=
  [ .contextBlock ("*" ++ projectName ++ "*"),
    .sectionBlock ("*" ++ uploader ++ "* uploaded a new asset: *<" ++ shortUrl ++ "|" ++ assetName ++ ">* " ++ sizeStr),
    .imageBlock thumb "Video thumbnail",
    .dividerBlock ]

/-- HTTP status derived from the Slack relay oracle: 200 on success,
500 when the POST rejects. -/
def statusOf : Except Unit Unit → Nat
  | .ok _ => 200
  | .error _ => 500

/-- Outcome of one request to the `server.js` webhook handler: response
status, the block list POSTed to Slack (`none` when no POST was attempted),
whether a formatting branch was entered, and the token cache afterwards. -/
structure ServerOutcome where
  status : Nat
  post : Option (List Block)
  formatted : Bool
  state : TokenState
deriving DecidableEq, Repr

/-- The `POST /webhook` handler of `src/server.js` lines 78–135.  The
configuration is checked first; then the handler dispatches on the event
type, enriches via `getProjectName`, builds the blocks and relays them.  A
missing `resource.owner` or `resource.asset` on the comment path raises a
`TypeError` that the surrounding `try/catch` turns into a 500. -/
def serverWebhook (slackUrl : Option String) (ev : Event) (st : TokenState)
    (now : Int) (idRes : Except Unit TokenResponse)
    (projRes : Except Unit ProjData) (slackRes : Except Unit Unit) : ServerOutcome :=
  if jsTruthyS slackUrl = false then
    ⟨500, none, false, st⟩
  else if ev.type = "comment.created" then
    let r := ev.resource
    let pn := getProjectName r.project_id st now idRes projRes
    match r.owner, r.asset with
    | some o, some a =>
      let blocks := commentBlocks (jsStr pn.result) o.name a.name
        (formatTimestamp r.timestamp) r.text a.thumbnail_url
      ⟨statusOf slackRes, some blocks, true, pn.state⟩
    | _, _ => ⟨500, none, true, pn.state⟩
  else if ev.type = "asset.created" then
    let r := ev.resource
    let pn := getProjectName r.project_id st now idRes projRes
    let uploader := match r.owner with
      | some o => o.name
      | none => "A user"
    let blocks := assetBlocks (jsStr pn.result) uploader r.name r.short_url
      (assetSizeStr r.filesize) (jsStr r.thumbnail_url)
    ⟨statusOf slackRes, some blocks, true, pn.state⟩
  else
    ⟨200, none, false, st⟩

/-- Outcome of one request to a plain-text variant handler: response
status, the message text built by the formatter (`none` when the formatter
was not reached), and whether a relay POST was attempted. -/
structure TextOutcome where
  status : Nat
  message : Option String
  relayAttempted : Bool
deriving DecidableEq, Repr

/-- The `POST /webhook` handler of `src/unnamed/part_001` lines 21–56: it
validates the configuration first, formats a plain-text message per event
type, and relays it. -/
def part001Webhook (slackUrl : Option String) (ev : Event)
    (slackRes : Except Unit Unit) : TextOutcome :=
  if jsTruthyS slackUrl = false then
    ⟨500, none, false⟩
  else if ev.type = "asset.created" then
    let r := ev.resource
    let msg := "🚀 *New Asset Uploaded to Frame.io*\n*Name:* " ++ r.name ++
      "\n<" ++ r.short_url ++ "|Click here to view>"
    ⟨statusOf slackRes, some msg, true⟩
  else if ev.type = "comment.created" then
    let r := ev.resource
    let assetUrl := match r.asset with
      | some a => a.short_url
      | none => "#"
    let assetName := match r.asset with
      | some a => a.name
      | none => "Unknown Asset"
    let msg := "💬 *New Comment in Frame.io*\n*Asset:* " ++ assetName ++
      "\n*Comment:* " ++ r.text ++ "\n<" ++ assetUrl ++ "|Click here to view>"
    ⟨statusOf slackRes, some msg, true⟩
  else
    ⟨200, none, false⟩

/-- The relay step of `src/unnamed/part_000`: `axios.post` to the
configured URL.  When the URL is unset the POST is still attempted and
rejects, so the catch branch answers 500. -/
def relayTo (slackUrl : Option String) (slackRes : Except Unit Unit)
    (msg : String) : TextOutcome :=
  if jsTruthyS slackUrl = false then
    ⟨500, some msg, true⟩
  else
    ⟨statusOf slackRes, some msg, true⟩

/-- The `POST /webhook` handler of `src/unnamed/part_000` lines 13–34: no
configuration check — the message is formatted and the relay attempted
regardless of whether the Slack URL is configured.  A missing
`resource.asset` on the comment path raises a `TypeError` that Express's
default error handler turns into a 500 without reaching the formatter. -/
def part000Webhook (slackUrl : Option String) (ev : Event)
    (slackRes : Except Unit Unit) : TextOutcome :=
  if ev.type = "asset.created" then
    let r := ev.resource
    let msg := "🚀 *New Asset Uploaded*\n*Name:* " ++ r.name ++
      "\n<" ++ r.short_url ++ "|Click here to view>"
    relayTo slackUrl slackRes msg
  else if ev.type = "comment.created" then
    match ev.resource.asset with
    | some a =>
      let msg := "💬 *New Comment*\n*Asset:* " ++ a.name ++
        "\n*Comment:* " ++ ev.resource.text ++
        "\n<" ++ a.short_url ++ "|Click here to view comment>"
      relayTo slackUrl slackRes msg
    | none => ⟨500, none, false⟩
  else
    ⟨200, none, false⟩

/-- Five strings occur, in this structural order, inside `s`. -/
def strContainsInOrder (s p1 p2 p3 p4 p5 : String) : Prop :=
  ∃ a b c d e f : List Char,
    s.data = a ++ p1.data ++ b ++ p2.data ++ c ++ p3.data ++ d ++ p4.data ++ e ++ p5.data ++ f

/-- C1: the claim is false on the code — `server.js` line 39 sets the cached
expiry to `Date.now() + 60 * 60 * 1000`, a fixed hour, ignoring the
`expires_in` value of the identity response.  At `now = 0` with an identity
response declaring `expires_in = 86400` seconds, the stored expiry is
3 600 000 ms, while the claim requires `now + 86400·1000 − 60000`. -/
theorem c1_counterexample :
    (getAccessToken ⟨none, none⟩ 0 (.ok ⟨"tok", 86400⟩)).state.tokenExpiry = some 3600000 ∧
    (0 : Int) + 86400 * 1000 - 60000 ≠ 3600000 := by
  constructor
  · decide
  · decide

/-- C1 (amended): when `getAccessToken` must refresh, it stores the returned
token and sets the cached expiry to the current time plus a fixed hour
(3 600 000 ms), independent of the `expires_in` value; a token obtained at
time `now` is then reused, with no identity call and no mutation, by every
call strictly before `now + 3 600 000`, and a call at or after that instant
consults the identity endpoint again. -/
theorem c1_amended (st : TokenState) (now now1 now2 : Int) (r : TokenResponse)
    (idRes1 idRes2 : Except Unit TokenResponse)
    (hrefresh : ¬(jsTruthyS st.accessToken = true ∧ now < expiryNum st.tokenExpiry))
    (htok : r.access_token ≠ "")
    (h1 : now1 < now + 3600000) (h2 : now + 3600000 ≤ now2) :
    getAccessToken st now (.ok r) =
      ⟨.ok r.access_token, ⟨some r.access_token, some (now + 3600000)⟩, true⟩ ∧
    getAccessToken ⟨some r.access_token, some (now + 3600000)⟩ now1 idRes1 =
      ⟨.ok r.access_token, ⟨some r.access_token, some (now + 3600000)⟩, false⟩ ∧
    (getAccessToken ⟨some r.access_token, some (now + 3600000)⟩ now2 idRes2).identityCalled = true := by
  refine ⟨?_, ?_, ?_⟩
  · unfold getAccessToken
    rw [if_neg hrefresh]
  · unfold getAccessToken
    rw [if_pos ⟨by simp [jsTruthyS, bne_iff_ne, htok], by simpa [expiryNum] using h1⟩]
    simp
  · unfold getAccessToken
    rw [if_neg (by rintro ⟨-, hlt⟩; simp [expiryNum] at hlt; omega)]
    cases idRes2 <;> rfl

/-- C1 (amended) at a concrete input: refresh at time 0 stores expiry
3 600 000; a call at 3 599 999 reuses the cached token; a call at 3 600 000
refreshes again. -/
theorem c1_amended_witness :
    ¬(jsTruthyS (⟨none, none⟩ : TokenState).accessToken = true ∧
        (0 : Int) < expiryNum (⟨none, none⟩ : TokenState).tokenExpiry) ∧
    ("tok" : String) ≠ "" ∧
    (3599999 : Int) < 0 + 3600000 ∧
    (0 : Int) + 3600000 ≤ 3600000 ∧
    (getAccessToken ⟨none, none⟩ 0 (.ok ⟨"tok", 86400⟩) =
        ⟨.ok "tok", ⟨some "tok", some (0 + 3600000)⟩, true⟩ ∧
      getAccessToken ⟨some "tok", some (0 + 3600000)⟩ 3599999 (.error ()) =
        ⟨.ok "tok", ⟨some "tok", some (0 + 3600000)⟩, false⟩ ∧
      (getAccessToken ⟨some "tok", some (0 + 3600000)⟩ 3600000 (.error ())).identityCalled = true) :=
  ⟨by decide, by decide, by decide, by decide,
    c1_amended ⟨none, none⟩ 0 3599999 3600000 ⟨"tok", 86400⟩ (.error ()) (.error ())
      (by decide) (by decide) (by decide) (by decide)⟩

/-- C2: while the cached token is a non-empty string and the current time is
strictly before the stored expiry, `getAccessToken` returns the cached token,
leaves the cache untouched, and makes no identity-endpoint call
(`server.js` lines 24–26); "a cached token exists" is formalised as the
code's own truthiness guard `accessToken && ...`. -/
theorem c2_cache_hit (st : TokenState) (s : String) (now : Int)
    (idRes : Except Unit TokenResponse)
    (hs : st.accessToken = some s) (hne : s ≠ "")
    (hexp : now < expiryNum st.tokenExpiry) :
    getAccessToken st now idRes = ⟨.ok s, st, false⟩ := by
  unfold getAccessToken
  rw [if_pos ⟨by simp [jsTruthyS, hs, bne_iff_ne, hne], hexp⟩]
  simp [hs]

/-- C2 at a concrete input: cached token "tok" with expiry 100, queried at
time 5, is returned unchanged with no identity call. -/
theorem c2_cache_hit_witness :
    (⟨some "tok", some 100⟩ : TokenState).accessToken = some "tok" ∧
    ("tok" : String) ≠ "" ∧
    (5 : Int) < expiryNum (⟨some "tok", some 100⟩ : TokenState).tokenExpiry ∧
    getAccessToken ⟨some "tok", some 100⟩ 5 (.error ()) =
      ⟨.ok "tok", ⟨some "tok", some 100⟩, false⟩ :=
  ⟨rfl, by decide, by decide,
    c2_cache_hit ⟨some "tok", some 100⟩ "tok" 5 (.error ()) rfl (by decide) (by decide)⟩

/-- C10: when the refresh path is taken and the identity exchange fails,
`getAccessToken` throws and the cache keeps the exact values it held before
the call (`server.js` lines 44–47 assign nothing before re-throwing). -/
theorem c10_error_preserves_state (st : TokenState) (now : Int)
    (hrefresh : ¬(jsTruthyS st.accessToken = true ∧ now < expiryNum st.tokenExpiry)) :
    getAccessToken st now (.error ()) = ⟨.error (), st, true⟩ := by
  unfold getAccessToken
  rw [if_neg hrefresh]

/-- C10 at a concrete input: an empty cache at time 0 with a failing
exchange throws and stays empty. -/
theorem c10_error_preserves_state_witness :
    ¬(jsTruthyS (⟨none, none⟩ : TokenState).accessToken = true ∧
        (0 : Int) < expiryNum (⟨none, none⟩ : TokenState).tokenExpiry) ∧
    getAccessToken ⟨none, none⟩ 0 (.error ()) = ⟨.error (), ⟨none, none⟩, true⟩ :=
  ⟨by decide, c10_error_preserves_state ⟨none, none⟩ 0 (by decide)⟩

/-- C3: the claim is false on the code — when the lookup succeeds at the
HTTP level but the 2xx response is malformed (no `name` field),
`getProjectName` returns `response.data.name`, i.e. JS `undefined`
(modelled `none`), not the literal "Unknown Project"
(`server.js` line 67 has no shape check). -/
theorem c3_counterexample :
    (getProjectName (some "p1") ⟨none, none⟩ 0 (.ok ⟨"tok", 86400⟩) (.ok ⟨none⟩)).result = none ∧
    (none : Option String) ≠ some "Unknown Project" := by
  constructor
  · decide
  · decide

/-- C3 (amended): `getProjectName` returns "Unknown Project" with no network
activity when `projectId` is falsy, and returns "Unknown Project" whenever
the lookup request rejects — network/HTTP error or identity-exchange failure
— with no exception escaping; but a 2xx response yields `response.data.name`
verbatim, which is JS `undefined` rather than the fallback when the field is
missing. -/
theorem c3_amended (pid : String) (st : TokenState) (now : Int)
    (projRes : Except Unit ProjData) (d : ProjData) (r : TokenResponse)
    (hpid : pid ≠ "")
    (hrefresh : ¬(jsTruthyS st.accessToken = true ∧ now < expiryNum st.tokenExpiry)) :
    getProjectName none st now (.ok r) projRes = ⟨some "Unknown Project", st, false⟩ ∧
    (getProjectName (some pid) st now (.ok r) (.error ())).result = some "Unknown Project" ∧
    (getProjectName (some pid) st now (.error ()) projRes).result = some "Unknown Project" ∧
    (getProjectName (some pid) st now (.ok r) (.ok d)).result = d.name := by
  have hpidT : ¬(jsTruthyS (some pid) = false) := by
    simp [jsTruthyS, bne_iff_ne, hpid]
  have hok : getAccessToken st now (.ok r) =
      ⟨.ok r.access_token, ⟨some r.access_token, some (now + 3600000)⟩, true⟩ := by
    unfold getAccessToken
    rw [if_neg hrefresh]
  have herr : getAccessToken st now (.error ()) = ⟨.error (), st, true⟩ := by
    unfold getAccessToken
    rw [if_neg hrefresh]
  refine ⟨?_, ?_, ?_, ?_⟩
  · simp [getProjectName, jsTruthyS]
  · unfold getProjectName
    rw [if_neg hpidT]
    simp [hok]
  · unfold getProjectName
    rw [if_neg hpidT]
    simp [herr]
  · unfold getProjectName
    rw [if_neg hpidT]
    simp [hok]

/-- C3 (amended) at concrete inputs: absent id → fallback with no network;
rejected GET → fallback; failed identity exchange → fallback; 2xx response
with a `name` → that name. -/
theorem c3_amended_witness :
    ("p1" : String) ≠ "" ∧
    ¬(jsTruthyS (⟨none, none⟩ : TokenState).accessToken = true ∧
        (0 : Int) < expiryNum (⟨none, none⟩ : TokenState).tokenExpiry) ∧
    (getProjectName none ⟨none, none⟩ 0 (.ok ⟨"tok", 86400⟩) (.ok ⟨some "ProjX"⟩) =
        ⟨some "Unknown Project", ⟨none, none⟩, false⟩ ∧
      (getProjectName (some "p1") ⟨none, none⟩ 0 (.ok ⟨"tok", 86400⟩) (.error ())).result =
        some "Unknown Project" ∧
      (getProjectName (some "p1") ⟨none, none⟩ 0 (.error ()) (.ok ⟨some "ProjX"⟩)).result =
        some "Unknown Project" ∧
      (getProjectName (some "p1") ⟨none, none⟩ 0 (.ok ⟨"tok", 86400⟩) (.ok ⟨some "ProjX"⟩)).result =
        (⟨some "ProjX"⟩ : ProjData).name) :=
  ⟨by decide, by decide,
    c3_amended "p1" ⟨none, none⟩ 0 (.ok ⟨some "ProjX"⟩) ⟨some "ProjX"⟩ ⟨"tok", 86400⟩
      (by decide) (by decide)⟩

/-- C5: with the chat URL configured, an event whose type is neither
`comment.created` nor `asset.created` is acknowledged with 200 and nothing
is POSTed to the chat endpoint, in all three handler variants
(`server.js` lines 122–125, `part_001` lines 40–43, `part_000`
lines 21–23); the `part_000` variant needs no configured URL for this. -/
theorem c5_unhandled (u : String) (u2 : Option String) (ev : Event)
    (st : TokenState) (now : Int) (idRes : Except Unit TokenResponse)
    (projRes : Except Unit ProjData) (slackRes : Except Unit Unit)
    (hu : u ≠ "")
    (h1 : ev.type ≠ "comment.created") (h2 : ev.type ≠ "asset.created") :
    serverWebhook (some u) ev st now idRes projRes slackRes = ⟨200, none, false, st⟩ ∧
    part001Webhook (some u) ev slackRes = ⟨200, none, false⟩ ∧
    part000Webhook u2 ev slackRes = ⟨200, none, false⟩ := by
  have huT : ¬(jsTruthyS (some u) = false) := by
    simp [jsTruthyS, bne_iff_ne, hu]
  refine ⟨?_, ?_, ?_⟩
  · unfold serverWebhook
    rw [if_neg huT, if_neg h1, if_neg h2]
  · unfold part001Webhook
    rw [if_neg huT, if_neg h2, if_neg h1]
  · unfold part000Webhook
    rw [if_neg h2, if_neg h1]

/-- C5 at a concrete input: `type = "unknown.event"` yields 200 and no
outbound chat call in every variant. -/
theorem c5_unhandled_witness :
    ("https://hooks" : String) ≠ "" ∧
    (Event.mk "unknown.event" {}).type ≠ "comment.created" ∧
    (Event.mk "unknown.event" {}).type ≠ "asset.created" ∧
    (serverWebhook (some "https://hooks") ⟨"unknown.event", {}⟩ ⟨none, none⟩ 0
        (.error ()) (.error ()) (.ok ()) = ⟨200, none, false, ⟨none, none⟩⟩ ∧
      part001Webhook (some "https://hooks") ⟨"unknown.event", {}⟩ (.ok ()) = ⟨200, none, false⟩ ∧
      part000Webhook none ⟨"unknown.event", {}⟩ (.ok ()) = ⟨200, none, false⟩) :=
  ⟨by decide, by decide, by decide,
    c5_unhandled "https://hooks" none ⟨"unknown.event", {}⟩ ⟨none, none⟩ 0
      (.error ()) (.error ()) (.ok ()) (by decide) (by decide) (by decide)⟩

/-- C6: the claim is false on the code — the `part_000` variant
(`src/unnamed/part_000` lines 13–34) has no configuration check: with the
chat URL unset, an `asset.created` event is still formatted and a relay
POST is attempted (which rejects), so the 500 is not produced "immediately,
without invoking the payload formatter and without attempting any relay". -/
theorem c6_counterexample :
    (part000Webhook none ⟨"asset.created", { name := "clip.mp4", short_url := "https://f.io/x" }⟩
        (.ok ())).status = 500 ∧
    (part000Webhook none ⟨"asset.created", { name := "clip.mp4", short_url := "https://f.io/x" }⟩
        (.ok ())).message.isSome = true ∧
    (part000Webhook none ⟨"asset.created", { name := "clip.mp4", short_url := "https://f.io/x" }⟩
        (.ok ())).relayAttempted = true := by
  refine ⟨by decide, by decide, by decide⟩

/-- C6 (amended): in the two variants that validate their configuration
(`server.js` lines 79–82 and `part_001` lines 23–26), a falsy chat URL
yields an immediate 500 with no formatting, no relay attempt and no state
change; the `part_000` variant lacks this check. -/
theorem c6_amended (ev : Event) (st : TokenState) (now : Int)
    (idRes : Except Unit TokenResponse) (projRes : Except Unit ProjData)
    (slackRes : Except Unit Unit) :
    serverWebhook none ev st now idRes projRes slackRes = ⟨500, none, false, st⟩ ∧
    serverWebhook (some "") ev st now idRes projRes slackRes = ⟨500, none, false, st⟩ ∧
    part001Webhook none ev slackRes = ⟨500, none, false⟩ ∧
    part001Webhook (some "") ev slackRes = ⟨500, none, false⟩ := by
  refine ⟨?_, ?_, ?_, ?_⟩
  · unfold serverWebhook
    rw [if_pos (by decide)]
  · unfold serverWebhook
    rw [if_pos (by decide)]
  · unfold part001Webhook
    rw [if_pos (by decide)]
  · unfold part001Webhook
    rw [if_pos (by decide)]

/-- C4: the claim is false on the code — an identity-exchange failure during
a `comment.created` event is caught by the `try/catch` inside
`getProjectName` (`server.js` lines 65–71; the axios request interceptor's
rejection propagates into the GET's rejection), so formatting continues with
"Unknown Project" and the handler answers 200, not 500, when the relay
succeeds. -/
theorem c4_counterexample :
    (serverWebhook (some "https://hooks")
        ⟨"comment.created",
          { project_id := some "p1", owner := some ⟨"Alice"⟩,
            asset := some ⟨"video.mp4", "https://f.io/v", "https://thumb"⟩,
            timestamp := 61, text := "Nice cut" }⟩
        ⟨none, none⟩ 0 (.error ()) (.ok ⟨some "ProjX"⟩) (.ok ())).status = 200 ∧
    (200 : Nat) ≠ 500 := by
  constructor
  · decide
  · decide

/-- C4 (amended): `getAccessToken` itself does throw when the identity
exchange fails, but the error never aborts formatting, on either event
type: it is swallowed by the project lookup, which substitutes
"Unknown Project"; the handler then builds the blocks — comment blocks for
`comment.created`, asset blocks for `asset.created` — relays them, responds
per the relay outcome, and leaves the token cache untouched. -/
theorem c4_amended (u : String) (ev ev2 : Event) (st : TokenState) (now : Int)
    (projRes : Except Unit ProjData) (slackRes : Except Unit Unit)
    (o : Owner) (a : Asset)
    (hu : u ≠ "") (hty : ev.type = "comment.created")
    (ho : ev.resource.owner = some o) (ha : ev.resource.asset = some a)
    (hty2 : ev2.type = "asset.created")
    (hrefresh : ¬(jsTruthyS st.accessToken = true ∧ now < expiryNum st.tokenExpiry)) :
    (getAccessToken st now (.error ())).result = .error () ∧
    serverWebhook (some u) ev st now (.error ()) projRes slackRes =
      ⟨statusOf slackRes,
        some (commentBlocks "Unknown Project" o.name a.name
          (formatTimestamp ev.resource.timestamp) ev.resource.text a.thumbnail_url),
        true, st⟩ ∧
    serverWebhook (some u) ev2 st now (.error ()) projRes slackRes =
      ⟨statusOf slackRes,
        some (assetBlocks "Unknown Project"
          (match ev2.resource.owner with
            | some ow => ow.name
            | none => "A user")
          ev2.resource.name ev2.resource.short_url
          (assetSizeStr ev2.resource.filesize) (jsStr ev2.resource.thumbnail_url)),
        true, st⟩ := by
  have herr : getAccessToken st now (.error ()) = ⟨.error (), st, true⟩ := by
    unfold getAccessToken
    rw [if_neg hrefresh]
  have hres : ∀ pid : Option String,
      (getProjectName pid st now (.error ()) projRes).result = some "Unknown Project" ∧
      (getProjectName pid st now (.error ()) projRes).state = st := by
    intro pid
    unfold getProjectName
    by_cases hp : jsTruthyS pid = false
    · rw [if_pos hp]
      exact ⟨rfl, rfl⟩
    · rw [if_neg hp]
      simp [herr]
  have huT : ¬(jsTruthyS (some u) = false) := by
    simp [jsTruthyS, bne_iff_ne, hu]
  refine ⟨by rw [herr], ?_, ?_⟩
  · unfold serverWebhook
    rw [if_neg huT, if_pos hty]
    simp only [ho, ha]
    simp [(hres ev.resource.project_id).1, (hres ev.resource.project_id).2, jsStr]
  · unfold serverWebhook
    rw [if_neg huT, if_neg (by rw [hty2]; decide), if_pos hty2]
    simp [(hres ev2.resource.project_id).1, (hres ev2.resource.project_id).2, jsStr]

/-- C4 (amended) at concrete inputs: a failing identity exchange on a fully
populated `comment.created` event and on an `asset.created` event both
yield a 200 with the fallback project name in the relayed blocks and an
unchanged cache. -/
theorem c4_amended_witness :
    ("https://hooks" : String) ≠ "" ∧
    (Event.mk "comment.created"
        { project_id := some "p1", owner := some ⟨"Alice"⟩,
          asset := some ⟨"video.mp4", "https://f.io/v", "https://thumb"⟩,
          timestamp := 61, text := "Nice cut" }).type = "comment.created" ∧
    (Event.mk "comment.created"
        { project_id := some "p1", owner := some ⟨"Alice"⟩,
          asset := some ⟨"video.mp4", "https://f.io/v", "https://thumb"⟩,
          timestamp := 61, text := "Nice cut" }).resource.owner = some ⟨"Alice"⟩ ∧
    (Event.mk "comment.created"
        { project_id := some "p1", owner := some ⟨"Alice"⟩,
          asset := some ⟨"video.mp4", "https://f.io/v", "https://thumb"⟩,
          timestamp := 61, text := "Nice cut" }).resource.asset =
      some ⟨"video.mp4", "https://f.io/v", "https://thumb"⟩ ∧
    (Event.mk "asset.created"
        { project_id := some "p2", name := "clip.mp4", short_url := "https://f.io/x",
          filesize := some 5242880 }).type = "asset.created" ∧
    ¬(jsTruthyS (⟨none, none⟩ : TokenState).accessToken = true ∧
        (0 : Int) < expiryNum (⟨none, none⟩ : TokenState).tokenExpiry) ∧
    ((getAccessToken ⟨none, none⟩ 0 (.error ())).result = .error () ∧
      serverWebhook (some "https://hooks")
          ⟨"comment.created",
            { project_id := some "p1", owner := some ⟨"Alice"⟩,
              asset := some ⟨"video.mp4", "https://f.io/v", "https://thumb"⟩,
              timestamp := 61, text := "Nice cut" }⟩
          ⟨none, none⟩ 0 (.error ()) (.ok ⟨some "ProjX"⟩) (.ok ()) =
        ⟨statusOf (.ok ()),
          some (commentBlocks "Unknown Project" (Owner.mk "Alice").name
            (Asset.mk "video.mp4" "https://f.io/v" "https://thumb").name
            (formatTimestamp (Event.mk "comment.created"
              { project_id := some "p1", owner := some ⟨"Alice"⟩,
                asset := some ⟨"video.mp4", "https://f.io/v", "https://thumb"⟩,
                timestamp := 61, text := "Nice cut" }).resource.timestamp)
            (Event.mk "comment.created"
              { project_id := some "p1", owner := some ⟨"Alice"⟩,
                asset := some ⟨"video.mp4", "https://f.io/v", "https://thumb"⟩,
                timestamp := 61, text := "Nice cut" }).resource.text
            (Asset.mk "video.mp4" "https://f.io/v" "https://thumb").thumbnail_url),
          true, ⟨none, none⟩⟩ ∧
      serverWebhook (some "https://hooks")
          ⟨"asset.created",
            { project_id := some "p2", name := "clip.mp4", short_url := "https://f.io/x",
              filesize := some 5242880 }⟩
          ⟨none, none⟩ 0 (.error ()) (.ok ⟨some "ProjX"⟩) (.ok ()) =
        ⟨statusOf (.ok ()),
          some (assetBlocks "Unknown Project"
            (match (Event.mk "asset.created"
                { project_id := some "p2", name := "clip.mp4", short_url := "https://f.io/x",
                  filesize := some 5242880 }).resource.owner with
              | some ow => ow.name
              | none => "A user")
            (Event.mk "asset.created"
              { project_id := some "p2", name := "clip.mp4", short_url := "https://f.io/x",
                filesize := some 5242880 }).resource.name
            (Event.mk "asset.created"
              { project_id := some "p2", name := "clip.mp4", short_url := "https://f.io/x",
                filesize := some 5242880 }).resource.short_url
            (assetSizeStr (Event.mk "asset.created"
              { project_id := some "p2", name := "clip.mp4", short_url := "https://f.io/x",
                filesize := some 5242880 }).resource.filesize)
            (jsStr (Event.mk "asset.created"
              { project_id := some "p2", name := "clip.mp4", short_url := "https://f.io/x",
                filesize := some 5242880 }).resource.thumbnail_url)),
          true, ⟨none, none⟩⟩) :=
  ⟨by decide, rfl, rfl, rfl, rfl, by decide,
    c4_amended "https://hooks"
      ⟨"comment.created",
        { project_id := some "p1", owner := some ⟨"Alice"⟩,
          asset := some ⟨"video.mp4", "https://f.io/v", "https://thumb"⟩,
          timestamp := 61, text := "Nice cut" }⟩
      ⟨"asset.created",
        { project_id := some "p2", name := "clip.mp4", short_url := "https://f.io/x",
          filesize := some 5242880 }⟩
      ⟨none, none⟩ 0 (.ok ⟨some "ProjX"⟩) (.ok ()) ⟨"Alice"⟩
      ⟨"video.mp4", "https://f.io/v", "https://thumb"⟩
      (by decide) rfl rfl rfl rfl (by decide)⟩

/-- C8: the claim is false on the code — `server.js` line 95 goes through
`toISOString`, which reduces the hour field modulo 24: a timestamp of
90 000 seconds is emitted as "01:00:00", which does not represent 90 000
seconds (the spec's reading gives "25:00:00"). -/
theorem c8_counterexample :
    formatTimestamp 90000 = "01:00:00" ∧
    specHMS 90000 = "25:00:00" ∧
    formatTimestamp 90000 ≠ specHMS 90000 := by
  refine ⟨by decide, by decide, by decide⟩

/-- C8 (amended): for timestamps below 24 hours (t < 86 400 s) the emitted
string is exactly the zero-padded HH:MM:SS representation of t seconds; at
and above 24 hours the hour field wraps modulo 24. -/
theorem c8_amended (t : Nat) (h : t < 86400) : formatTimestamp t = specHMS t := by
  have hm : (t / 3600) % 24 = t / 3600 := by omega
  simp only [formatTimestamp, specHMS, hm]

/-- C8 (amended) at a concrete input: 3 723 s is emitted as "01:02:03". -/
theorem c8_amended_witness : 3723 < 86400 ∧ formatTimestamp 3723 = specHMS 3723 :=
  ⟨by decide, c8_amended 3723 (by decide)⟩

/-- C9: the claim is false on the code — `server.js` line 113 guards the
size component with JS truthiness (`resource.filesize ? ... : ''`), so a
present filesize of 0 bytes omits the component instead of rendering
"(0.00 MB)". -/
theorem c9_counterexample :
    assetSizeStr (some 0) = "" ∧
    assetSizeStr (some 0) ≠ "(" ++ toFixed2MB 0 ++ " MB)" := by
  refine ⟨by decide, by decide⟩

/-- C9 (amended): a present, nonzero filesize is rendered as the byte count
converted to megabytes with two-decimal precision, wrapped as "(… MB)"; an
absent (or zero) filesize omits the component. -/
theorem c9_amended (n : Nat) (hn : n ≠ 0) :
    assetSizeStr (some n) = "(" ++ toFixed2MB n ++ " MB)" ∧
    assetSizeStr none = "" := by
  refine ⟨?_, rfl⟩
  simp [assetSizeStr, hn]

/-- C9 (amended) at a concrete input: 1 048 576 bytes renders with the
two-decimal MB component, and an absent filesize renders nothing. -/
theorem c9_amended_witness :
    (1048576 : Nat) ≠ 0 ∧
    (assetSizeStr (some 1048576) = "(" ++ toFixed2MB 1048576 ++ " MB)" ∧
      assetSizeStr none = "") :=
  ⟨by decide, c9_amended 1048576 (by decide)⟩

/-- If five strings occur in order inside `s`, every character of the first
one occurs in `s`. -/
theorem strContainsInOrder_mem (s p1 p2 p3 p4 p5 : String)
    (h : strContainsInOrder s p1 p2 p3 p4 p5) (c : Char) (hc : c ∈ p1.data) :
    c ∈ s.data := by
  obtain ⟨a, b, d, e, f, g, hs⟩ := h
  rw [hs]
  simp [List.mem_append]
  tauto

/-- C7: the claim is false on the code — the `part_001` variant
(`src/unnamed/part_001` lines 35–39) relays, for a fully populated
`comment.created` event, a plain-text message holding only the asset name,
comment text and link: the resolved project name (here "ProjX") does not
occur in it at all (no character 'P' occurs), so the five fields cannot
appear in the claimed structural order. -/
theorem c7_counterexample :
    ¬ strContainsInOrder
        ((part001Webhook (some "https://hooks")
            ⟨"comment.created",
              { project_id := some "p1", owner := some ⟨"Alice"⟩,
                asset := some ⟨"video.mp4", "https://f.io/v", "https://thumb"⟩,
                timestamp := 61, text := "Nice cut" }⟩
            (.ok ())).message.getD "")
        "ProjX" "Alice" "video.mp4" (formatTimestamp 61) "Nice cut" := by
  intro h
  have hmem := strContainsInOrder_mem _ _ _ _ _ _ h 'P' (by decide)
  revert hmem
  decide

/-- C7 (amended): in the block-structured variant (`server.js`
lines 99–104), a `comment.created` event with owner and asset present
relays blocks whose text contains the resolved project name, the commenter
name, the asset name, the formatted timestamp and the comment text, in that
structural order; the plain-text variants emit only the asset name, comment
text and link. -/
theorem c7_amended (u pn : String) (ev : Event) (st : TokenState) (now : Int)
    (idRes : Except Unit TokenResponse) (projRes : Except Unit ProjData)
    (slackRes : Except Unit Unit) (o : Owner) (a : Asset)
    (hu : u ≠ "") (hty : ev.type = "comment.created")
    (ho : ev.resource.owner = some o) (ha : ev.resource.asset = some a)
    (hpn : (getProjectName ev.resource.project_id st now idRes projRes).result = some pn) :
    (serverWebhook (some u) ev st now idRes projRes slackRes).post =
      some (commentBlocks pn o.name a.name (formatTimestamp ev.resource.timestamp)
        ev.resource.text a.thumbnail_url) ∧
    strContainsInOrder
      (blocksText (commentBlocks pn o.name a.name (formatTimestamp ev.resource.timestamp)
        ev.resource.text a.thumbnail_url))
      pn o.name a.name (formatTimestamp ev.resource.timestamp) ev.resource.text := by
  constructor
  · have huT : ¬(jsTruthyS (some u) = false) := by
      simp [jsTruthyS, bne_iff_ne, hu]
    unfold serverWebhook
    rw [if_neg huT, if_pos hty]
    simp only [ho, ha]
    simp [hpn, jsStr]
  · refine ⟨"*".data, "*".data ++ "*".data, "* commented on *".data, "*\n`".data, "` ".data, [], ?_⟩
    simp [blocksText, blockText, commentBlocks, String.data_append, List.append_assoc,
      show ("" : String).data = [] from rfl]

/-- C7 (amended) at a concrete input: a fully populated `comment.created`
event relays blocks containing "ProjX", "Alice", "video.mp4", "00:01:01"
and "Nice cut" in order. -/
theorem c7_amended_witness :
    ("https://hooks" : String) ≠ "" ∧
    (Event.mk "comment.created"
        { project_id := some "p1", owner := some ⟨"Alice"⟩,
          asset := some ⟨"video.mp4", "https://f.io/v", "https://thumb"⟩,
          timestamp := 61, text := "Nice cut" }).type = "comment.created" ∧
    (Event.mk "comment.created"
        { project_id := some "p1", owner := some ⟨"Alice"⟩,
          asset := some ⟨"video.mp4", "https://f.io/v", "https://thumb"⟩,
          timestamp := 61, text := "Nice cut" }).resource.owner = some ⟨"Alice"⟩ ∧
    (Event.mk "comment.created"
        { project_id := some "p1", owner := some ⟨"Alice"⟩,
          asset := some ⟨"video.mp4", "https://f.io/v", "https://thumb"⟩,
          timestamp := 61, text := "Nice cut" }).resource.asset =
      some ⟨"video.mp4", "https://f.io/v", "https://thumb"⟩ ∧
    (getProjectName (Event.mk "comment.created"
        { project_id := some "p1", owner := some ⟨"Alice"⟩,
          asset := some ⟨"video.mp4", "https://f.io/v", "https://thumb"⟩,
          timestamp := 61, text := "Nice cut" }).resource.project_id
        ⟨none, none⟩ 0 (.ok ⟨"tok", 86400⟩) (.ok ⟨some "ProjX"⟩)).result = some "ProjX" ∧
    ((serverWebhook (some "https://hooks")
        (Event.mk "comment.created"
          { project_id := some "p1", owner := some ⟨"Alice"⟩,
            asset := some ⟨"video.mp4", "https://f.io/v", "https://thumb"⟩,
            timestamp := 61, text := "Nice cut" })
        ⟨none, none⟩ 0 (.ok ⟨"tok", 86400⟩) (.ok ⟨some "ProjX"⟩) (.ok ())).post =
      some (commentBlocks "ProjX" (Owner.mk "Alice").name
        (Asset.mk "video.mp4" "https://f.io/v" "https://thumb").name
        (formatTimestamp (Event.mk "comment.created"
          { project_id := some "p1", owner := some ⟨"Alice"⟩,
            asset := some ⟨"video.mp4", "https://f.io/v", "https://thumb"⟩,
            timestamp := 61, text := "Nice cut" }).resource.timestamp)
        (Event.mk "comment.created"
          { project_id := some "p1", owner := some ⟨"Alice"⟩,
            asset := some ⟨"video.mp4", "https://f.io/v", "https://thumb"⟩,
            timestamp := 61, text := "Nice cut" }).resource.text
        (Asset.mk "video.mp4" "https://f.io/v" "https://thumb").thumbnail_url) ∧
      strContainsInOrder
        (blocksText (commentBlocks "ProjX" (Owner.mk "Alice").name
          (Asset.mk "video.mp4" "https://f.io/v" "https://thumb").name
          (formatTimestamp (Event.mk "comment.created"
            { project_id := some "p1", owner := some ⟨"Alice"⟩,
              asset := some ⟨"video.mp4", "https://f.io/v", "https://thumb"⟩,
              timestamp := 61, text := "Nice cut" }).resource.timestamp)
          (Event.mk "comment.created"
            { project_id := some "p1", owner := some ⟨"Alice"⟩,
              asset := some ⟨"video.mp4", "https://f.io/v", "https://thumb"⟩,
              timestamp := 61, text := "Nice cut" }).resource.text
          (Asset.mk "video.mp4" "https://f.io/v" "https://thumb").thumbnail_url))
        "ProjX" (Owner.mk "Alice").name
        (Asset.mk "video.mp4" "https://f.io/v" "https://thumb").name
        (formatTimestamp (Event.mk "comment.created"
          { project_id := some "p1", owner := some ⟨"Alice"⟩,
            asset := some ⟨"video.mp4", "https://f.io/v", "https://thumb"⟩,
            timestamp := 61, text := "Nice cut" }).resource.timestamp)
        (Event.mk "comment.created"
          { project_id := some "p1", owner := some ⟨"Alice"⟩,
            asset := some ⟨"video.mp4", "https://f.io/v", "https://thumb"⟩,
            timestamp := 61, text := "Nice cut" }).resource.text) :=
  ⟨by decide, rfl, rfl, rfl, by decide,
    c7_amended "https://hooks" "ProjX"
      ⟨"comment.created",
        { project_id := some "p1", owner := some ⟨"Alice"⟩,
          asset := some ⟨"video.mp4", "https://f.io/v", "https://thumb"⟩,
          timestamp := 61, text := "Nice cut" }⟩
      ⟨none, none⟩ 0 (.ok ⟨"tok", 86400⟩) (.ok ⟨some "ProjX"⟩) (.ok ())
      ⟨"Alice"⟩ ⟨"video.mp4", "https://f.io/v", "https://thumb"⟩
      (by decide) rfl rfl rfl (by decide)⟩
